import Mathlib

/-! Shallow embedding of the billing handler (src/backend/billing/index.py) of the
MahaaTailorsApp repository. Python dict lookups with defaults become `Option.getD`,
Python truthiness on strings and numbers is modelled explicitly, and `Decimal` / `float`
currency arithmetic is modelled exactly as rational arithmetic (the handler only adds,
subtracts and multiplies such values). The DynamoDB tables become finite maps, i.e.
functions into `Option`. Generated identifiers and clock readings are passed in as
parameters so that every operation is a pure function. -/

deriving instance DecidableEq for Except

namespace Billing

/-- Python truthiness of an optional string: `None` (absent key) and `""` are falsy. -/
def strTruthy : Option String → Bool
  | none => false
  | some s => s != ""

/-- Python truthiness of an optional number: `None` (absent key) and `0` are falsy. -/
def numTruthy : Option ℚ → Bool
  | none => false
  | some x => x != 0

/-- Python `raw or "pending"` on an optional string: any falsy raw value (absent,
null, empty string) is replaced by `"pending"`. Mirrors
`item.get("delivery_status") or "pending"` in `get_bills`. -/
def orPending : Option String → String
  | none => "pending"
  | some s => if s = "" then "pending" else s

/-- The status derivation shared verbatim by every billing operation in the source:
`if outstanding <= 0: "fully_paid" elif paid > 0: "partially_paid" else: "unpaid"`. -/
def derive_status (outstanding paid : ℚ) : String :=
  if outstanding ≤ 0 then "fully_paid"
  else if 0 < paid then "partially_paid"
  else "unpaid"

/-- The status rule as the specification words it (claim C2): `fully_paid` iff
`totalAmount - paidAmount <= 0`; `unpaid` iff `paidAmount == 0` and outstanding is
positive; `partially_paid` otherwise. Written from the words of the spec, to be
compared with `derive_status` from the source. -/
def spec_status (total paid : ℚ) : String :=
  if total - paid ≤ 0 then "fully_paid"
  else if paid = 0 then "unpaid"
  else "partially_paid"

/-- Rounding to two decimal places (round half up), used only to state the claim C1
wording `paidAmount == round(sum(payments.amount), 2)`. The source code itself never
rounds. -/
def round2 (q : ℚ) : ℚ := (⌊q * 100 + 1 / 2⌋ : ℚ) / 100

/-- One embedded payment record inside a bill (an entry of `Bill.payments`). -/
structure Payment where
  id : String
  amount : ℚ
  paymentDate : String
  paymentMethod : String
  notes : String
  createdAt : ℤ
deriving DecidableEq, Repr

/-- `sum(float(p.get("amount", 0)) for p in payments)`: the payment amount sum. All
payments written by this handler carry an `amount`, so the field is total here. -/
def paySum (ps : List Payment) : ℚ := (ps.map Payment.amount).sum

/-- A processed received item as embedded by `add_bill` / `update_bill`. -/
structure ReceivedItem where
  id : String
  name : Option String
  description : String
  quantity : ℤ
  receivedDate : Option String
  status : String
deriving DecidableEq, Repr

/-- A row of the Bills table as written by this handler. `delivery_status` is kept
optional because legacy rows may lack the attribute (the migration case in
`get_bills`); every other attribute is always written by `add_bill` and is modelled
as a total field. -/
structure BillRecord where
  bill_id : String
  customer_id : String
  bill_number : String
  billing_date : String
  delivery_date : String
  delivery_status : Option String
  received_items : List ReceivedItem
  total_amount : ℚ
  paid_amount : ℚ
  outstanding_amount : ℚ
  status : String
  payments : List Payment
  discount : ℚ
  notes : String
  created_at : ℤ
  updated_at : ℤ
deriving DecidableEq, Repr

/-- A client supplied line item in a create/update request body. Quantities are
modelled as integers (the spec declares them positive integers), under which the
source coercions `Decimal(str(q))` and `int(q)` agree. The client may also send a
`totalPrice`; `add_bill` / `update_bill` ignore it and recompute. -/
structure ItemInput where
  id : Option String
  type : Option String
  name : Option String
  description : Option String
  quantity : Option ℤ
  unitPrice : Option ℚ
  totalPrice : Option ℚ
  configItemId : Option String
  materialSource : Option String
  deliveryStatus : Option String
  internalNotes : Option String
deriving DecidableEq, Repr

/-- A processed line item (`processed_item` in `add_bill` / `update_bill`): defaults
filled in, `totalPrice` recomputed as quantity times unit price. -/
structure ProcessedItem where
  id : String
  type : String
  name : Option String
  description : String
  quantity : ℤ
  unitPrice : ℚ
  totalPrice : ℚ
  configItemId : Option String
  materialSource : String
  deliveryStatus : String
  internalNotes : String
deriving DecidableEq, Repr

/-- Shared field construction of a processed item, given the id chosen for it. -/
def processItemFields (chosenId : String) (it : ItemInput) : ProcessedItem :=
  { id := chosenId
  , type := it.type.getD "custom"
  , name := it.name
  , description := it.description.getD ""
  , quantity := it.quantity.getD 1
  , unitPrice := it.unitPrice.getD 0
  , totalPrice := (it.quantity.getD 1 : ℚ) * it.unitPrice.getD 0
  , configItemId := it.configItemId
  , materialSource := it.materialSource.getD "customer"
  , deliveryStatus := it.deliveryStatus.getD "pending"
  , internalNotes := it.internalNotes.getD "" }

/-- Item processing in `add_bill`: the id is always freshly generated. -/
def processItemCreate (freshId : String) (it : ItemInput) : ProcessedItem :=
  processItemFields freshId it

/-- Item processing in `update_bill`: `item.get("id", fresh)` keeps a client id. -/
def processItemUpdate (freshId : String) (it : ItemInput) : ProcessedItem :=
  processItemFields (it.id.getD freshId) it

/-- The item loop of `add_bill`, with ids drawn from the generator `ids` in order. -/
def processItemsCreate (ids : ℕ → String) : ℕ → List ItemInput → List ProcessedItem
  | _, [] => []
  | n, it :: rest => processItemCreate (ids n) it :: processItemsCreate ids (n + 1) rest

/-- The item loop of `update_bill`. -/
def processItemsUpdate (ids : ℕ → String) : ℕ → List ItemInput → List ProcessedItem
  | _, [] => []
  | n, it :: rest => processItemUpdate (ids n) it :: processItemsUpdate ids (n + 1) rest

/-- `total_amount` accumulated over the input items, exactly the running sum of
`Decimal(str(quantity)) * Decimal(str(unit_price))` in the source loop. -/
def itemsTotal (its : List ItemInput) : ℚ :=
  (its.map fun it => (it.quantity.getD 1 : ℚ) * it.unitPrice.getD 0).sum

/-- A row of the BillItems table. `reference_images` and `created_at` are always
written by `save_bill_items`, so they are total fields of the row. -/
structure ItemRecord where
  item_id : String
  bill_id : String
  type : String
  name : Option String
  description : String
  quantity : ℤ
  unit_price : ℚ
  total_price : ℚ
  config_item_id : Option String
  material_source : String
  delivery_status : String
  internal_notes : String
  reference_images : List String
  created_at : ℤ
  updated_at : ℤ
deriving DecidableEq, Repr

/-- The request body of `update_bill_item` (PUT on a single ledger item). -/
structure ItemUpdateBody where
  name : Option String
  description : Option String
  quantity : Option ℤ
  unitPrice : Option ℚ
  deliveryStatus : Option String
  materialSource : Option String
  internalNotes : Option String
deriving DecidableEq, Repr

/-- The update-expression construction of `update_bill_item`: each provided field is
written (string fields under a truthiness check, `description` / `internalNotes` under
an `is not None` check, `quantity` under a truthiness check so that a zero quantity is
skipped). `total_price` is recomputed as `unit_price * int(body.get("quantity",
stored_quantity))` ONLY when `unitPrice` is part of the body; a body that changes only
`quantity` leaves the stored `total_price` untouched. -/
def updateBillItemFields (r : ItemRecord) (b : ItemUpdateBody) (now : ℤ) : ItemRecord :=
  { r with
    updated_at := now
  , name := match b.name with
      | some n => if n = "" then r.name else some n
      | none => r.name
  , description := b.description.getD r.description
  , quantity := match b.quantity with
      | some q => if q = 0 then r.quantity else q
      | none => r.quantity
  , unit_price := b.unitPrice.getD r.unit_price
  , total_price := match b.unitPrice with
      | some u => u * (b.quantity.getD r.quantity : ℚ)
      | none => r.total_price
  , delivery_status := match b.deliveryStatus with
      | some d => if d = "" then r.delivery_status else d
      | none => r.delivery_status
  , material_source := match b.materialSource with
      | some m => if m = "" then r.material_source else m
      | none => r.material_source
  , internal_notes := b.internalNotes.getD r.internal_notes }

/-- `update_bill_item`: requires an item id, 404 when the row is absent, otherwise
applies the field updates above and returns the stored row. -/
def update_bill_item (itemId : String) (existing : Option ItemRecord)
    (b : ItemUpdateBody) (now : ℤ) : Except String ItemRecord :=
  if itemId = "" then .error "Item ID is required."
  else match existing with
    | none => .error "Bill item not found."
    | some r => .ok (updateBillItemFields r b now)

/-- A client supplied received item of a create/update request body. -/
structure ReceivedItemInput where
  id : Option String
  name : Option String
  description : Option String
  quantity : Option ℤ
  receivedDate : Option String
  status : Option String
deriving DecidableEq, Repr

/-- Received item processing in `add_bill`: fresh id, status forced to "received". -/
def processReceivedCreate (freshId : String) (r : ReceivedItemInput) : ReceivedItem :=
  { id := freshId, name := r.name, description := r.description.getD ""
  , quantity := r.quantity.getD 1, receivedDate := r.receivedDate, status := "received" }

/-- Received item processing in `update_bill`: client id kept, status defaulted. -/
def processReceivedUpdate (freshId : String) (r : ReceivedItemInput) : ReceivedItem :=
  { id := r.id.getD freshId, name := r.name, description := r.description.getD ""
  , quantity := r.quantity.getD 1, receivedDate := r.receivedDate
  , status := r.status.getD "received" }

/-- The received item loop of `add_bill`. -/
def processReceivedsCreate (ids : ℕ → String) : ℕ → List ReceivedItemInput → List ReceivedItem
  | _, [] => []
  | n, r :: rest => processReceivedCreate (ids n) r :: processReceivedsCreate ids (n + 1) rest

/-- The received item loop of `update_bill`. -/
def processReceivedsUpdate (ids : ℕ → String) : ℕ → List ReceivedItemInput → List ReceivedItem
  | _, [] => []
  | n, r :: rest => processReceivedUpdate (ids n) r :: processReceivedsUpdate ids (n + 1) rest

/-- A client supplied payment in a create request body. -/
structure PaymentInput where
  amount : Option ℚ
  paymentDate : Option String
  paymentMethod : Option String
  notes : Option String
deriving DecidableEq, Repr

/-- The payment loop inside `add_bill`: a non positive amount is skipped with
`continue` (it is neither persisted nor an error); an amount pushing the running sum
above the bill total aborts the whole creation with the 400 error message; otherwise
the payment is appended and the running sum advanced. Ids are drawn from `ids` at the
running index, which the source advances per generated payment (a fresh random id per
accepted payment); `billingDate` and `now` fill the defaulted fields. -/
def process_payments (total : ℚ) (billingDate : String) (now : ℤ) (ids : ℕ → String) :
    ℕ → List PaymentInput → ℚ → Except String (List Payment × ℚ)
  | _, [], paid => .ok ([], paid)
  | n, p :: rest, paid =>
      let amt := p.amount.getD 0
      if amt ≤ 0 then process_payments total billingDate now ids n rest paid
      else if total < paid + amt then
        .error "Total payment amount cannot exceed bill total."
      else
        match process_payments total billingDate now ids (n + 1) rest (paid + amt) with
        | .error e => .error e
        | .ok (tail, finalPaid) =>
            .ok ({ id := ids n, amount := amt
                 , paymentDate := p.paymentDate.getD billingDate
                 , paymentMethod := p.paymentMethod.getD "cash"
                 , notes := p.notes.getD "", createdAt := now } :: tail, finalPaid)

/-- The create request body of `add_bill`. -/
structure AddBillRequest where
  customerId : Option String
  billingDate : Option String
  deliveryDate : Option String
  deliveryStatus : Option String
  items : List ItemInput
  receivedItems : List ReceivedItemInput
  payments : List PaymentInput
  discount : Option ℚ
  notes : Option String
deriving DecidableEq, Repr

/-- The required-field check of `add_bill`: customer id, billing date, delivery
date and a non empty item list (Python truthiness on each). -/
def validCreate (req : AddBillRequest) : Bool :=
  strTruthy req.customerId && strTruthy req.billingDate && strTruthy req.deliveryDate
    && !req.items.isEmpty

/-- `add_bill`: validation, total computation over the input items, payment
processing, and the Bills table row that is persisted, paired with the processed
items that are then handed to `save_bill_items`. The source computes the total and
the processed items in one loop; they are split into `itemsTotal` and
`processItemsCreate` here, with the same result. An error means the handler returned
400 before any write, so nothing is persisted. -/
def add_bill (req : AddBillRequest) (billId billNumber : String)
    (itemIds recvIds payIds : ℕ → String) (now : ℤ) :
    Except String (BillRecord × List ProcessedItem) :=
  if !(validCreate req) then
    .error "Customer ID, billing date, delivery date, and items are required."
  else
    let total := itemsTotal req.items
    let pItems := processItemsCreate itemIds 0 req.items
    let pReceived := processReceivedsCreate recvIds 0 req.receivedItems
    match process_payments total (req.billingDate.getD "") now payIds 0 req.payments 0 with
    | .error e => .error e
    | .ok (pays, paid) =>
        let outstanding := total - paid
        .ok
          ({ bill_id := billId
           , customer_id := req.customerId.getD ""
           , bill_number := billNumber
           , billing_date := req.billingDate.getD ""
           , delivery_date := req.deliveryDate.getD ""
           , delivery_status := some (req.deliveryStatus.getD "pending")
           , received_items := pReceived
           , total_amount := total
           , paid_amount := paid
           , outstanding_amount := outstanding
           , status := derive_status outstanding paid
           , payments := pays
           , discount := req.discount.getD 0
           , notes := req.notes.getD ""
           , created_at := now
           , updated_at := now }, pItems)

/-- The update request body of `update_bill` (no payments field is read). -/
structure UpdateBillRequest where
  customerId : Option String
  billingDate : Option String
  deliveryDate : Option String
  deliveryStatus : Option String
  items : List ItemInput
  receivedItems : List ReceivedItemInput
  discount : Option ℚ
  notes : Option String
deriving DecidableEq, Repr

/-- `update_bill`: validation, recomputation of the total from the replacement item
set, 404 when the bill row is absent, and the persisted header row. The update
expression of the source writes customer_id, billing_date, delivery_date,
delivery_status, received_items, total_amount, outstanding_amount, status, discount,
notes and updated_at; `payments` and `paid_amount` are not among the written fields,
so the returned row keeps them from the existing row. `outstanding_amount` is the new
total minus the stored `paid_amount`. -/
def update_bill (req : UpdateBillRequest) (billId : String) (existing : Option BillRecord)
    (itemIds recvIds : ℕ → String) (now : ℤ) :
    Except String (BillRecord × List ProcessedItem) :=
  if !(billId != "" && strTruthy req.customerId && strTruthy req.billingDate
       && strTruthy req.deliveryDate && !req.items.isEmpty) then
    .error "Bill ID, customer ID, billing date, delivery date, and items are required for update."
  else
    let total := itemsTotal req.items
    let pItems := processItemsUpdate itemIds 0 req.items
    let pReceived := processReceivedsUpdate recvIds 0 req.receivedItems
    match existing with
    | none => .error "Bill not found."
    | some b =>
        let paid := b.paid_amount
        let outstanding := total - paid
        .ok
          ({ b with
             customer_id := req.customerId.getD ""
           , billing_date := req.billingDate.getD ""
           , delivery_date := req.deliveryDate.getD ""
           , delivery_status := some (req.deliveryStatus.getD "pending")
           , received_items := pReceived
           , total_amount := total
           , outstanding_amount := outstanding
           , status := derive_status outstanding paid
           , discount := req.discount.getD 0
           , notes := req.notes.getD ""
           , updated_at := now }, pItems)

/-- The request body of the three payment endpoints. -/
structure PaymentBody where
  amount : Option ℚ
  paymentDate : Option String
  paymentMethod : Option String
  notes : Option String
deriving DecidableEq, Repr

/-- `add_payment`: requires a truthy bill id, amount, payment date and payment method
(so a missing or zero amount is a 400); 404 when the bill row is absent; rejects an
amount exceeding the STORED `outstanding_amount`; otherwise appends the payment and
writes payments, paid_amount (stored paid plus the amount), outstanding_amount,
status and updated_at in one update. -/
def add_payment (billId : String) (body : PaymentBody) (existing : Option BillRecord)
    (payId : String) (now : ℤ) : Except String BillRecord :=
  if !(billId != "" && numTruthy body.amount && strTruthy body.paymentDate
       && strTruthy body.paymentMethod) then
    .error "Bill ID, amount, payment date, and payment method are required."
  else match existing with
    | none => .error "Bill not found."
    | some bill =>
        let amt := body.amount.getD 0
        if bill.outstanding_amount < amt then
          .error "Payment amount cannot exceed outstanding balance."
        else
          let newPayment : Payment :=
            { id := payId, amount := amt
            , paymentDate := body.paymentDate.getD ""
            , paymentMethod := body.paymentMethod.getD ""
            , notes := body.notes.getD "", createdAt := now }
          let newPaid := bill.paid_amount + amt
          let newOutstanding := bill.total_amount - newPaid
          .ok { bill with
                payments := bill.payments ++ [newPayment]
              , paid_amount := newPaid
              , outstanding_amount := newOutstanding
              , status := derive_status newOutstanding newPaid
              , updated_at := now }

/-- The payment replacement loop of `update_payment`: the first entry whose id
matches is replaced wholesale, keeping only its original `createdAt`; `none` when no
entry matches. -/
def replacePayment (pid : String) (amt : ℚ) (pd pm nts : String) :
    List Payment → Option (List Payment)
  | [] => none
  | p :: rest =>
      if p.id = pid then
        some ({ id := pid, amount := amt, paymentDate := pd, paymentMethod := pm
              , notes := nts, createdAt := p.createdAt } :: rest)
      else (replacePayment pid amt pd pm nts rest).map (p :: ·)

/-- `update_payment`: required field check (an amount of zero is falsy and rejected),
404 when the bill or the payment is absent, then `paid_amount` recomputed as the
fresh sum over ALL payments after the replacement, `outstanding_amount` and status
recomputed, all persisted in one update. There is no ceiling check. -/
def update_payment (billId payId : String) (body : PaymentBody)
    (existing : Option BillRecord) (now : ℤ) : Except String BillRecord :=
  if !(billId != "" && payId != "" && numTruthy body.amount && strTruthy body.paymentDate
       && strTruthy body.paymentMethod) then
    .error "Bill ID, payment ID, amount, payment date, and payment method are required."
  else match existing with
    | none => .error "Bill not found."
    | some bill =>
        match replacePayment payId (body.amount.getD 0) (body.paymentDate.getD "")
            (body.paymentMethod.getD "") (body.notes.getD "") bill.payments with
        | none => .error "Payment not found."
        | some ps =>
            let newPaid := paySum ps
            let newOutstanding := bill.total_amount - newPaid
            .ok { bill with
                  payments := ps
                , paid_amount := newPaid
                , outstanding_amount := newOutstanding
                , status := derive_status newOutstanding newPaid
                , updated_at := now }

/-- The payment removal loop of `delete_payment`: removes the first entry whose id
matches; `none` when no entry matches. -/
def removePayment (pid : String) : List Payment → Option (List Payment)
  | [] => none
  | p :: rest =>
      if p.id = pid then some rest
      else (removePayment pid rest).map (p :: ·)

/-- `delete_payment`: 404 when the bill or the payment is absent, then the same fresh
recomputation of paid_amount, outstanding_amount and status as `update_payment`. -/
def delete_payment (billId payId : String) (existing : Option BillRecord) (now : ℤ) :
    Except String BillRecord :=
  if !(billId != "" && payId != "") then
    .error "Bill ID and payment ID are required."
  else match existing with
    | none => .error "Bill not found."
    | some bill =>
        match removePayment payId bill.payments with
        | none => .error "Payment not found."
        | some ps =>
            let newPaid := paySum ps
            let newOutstanding := bill.total_amount - newPaid
            .ok { bill with
                  payments := ps
                , paid_amount := newPaid
                , outstanding_amount := newOutstanding
                , status := derive_status newOutstanding newPaid
                , updated_at := now }

/-- The header update of `delete_bill_item` after the item row is removed: the stored
`total_price` of the deleted item is subtracted from the bill total (floored at 0),
the outstanding amount is recomputed against the preserved `paid_amount`, the status
is recomputed; only total_amount, outstanding_amount, status and updated_at are
written. -/
def deleteItemHeaderUpdate (bill : BillRecord) (itemTotal : ℚ) (now : ℤ) : BillRecord :=
  let newTotal := max 0 (bill.total_amount - itemTotal)
  let newOutstanding := newTotal - bill.paid_amount
  { bill with
    total_amount := newTotal
  , outstanding_amount := newOutstanding
  , status := derive_status newOutstanding bill.paid_amount
  , updated_at := now }

/-- `delete_bill_item` over the two tables: requires an item id, 404 when the item
row is absent, deletes the row, and when the parent bill row exists applies
`deleteItemHeaderUpdate` to it (when the parent is missing the item is still deleted
and the call succeeds, as in the source). -/
def delete_bill_item (itemId : String)
    (itemsTbl : String → Option ItemRecord) (billsTbl : String → Option BillRecord)
    (now : ℤ) :
    Except String ((String → Option ItemRecord) × (String → Option BillRecord)) :=
  if itemId = "" then .error "Item ID is required."
  else match itemsTbl itemId with
    | none => .error "Bill item not found."
    | some item =>
        let itemsTbl' := fun k => if k = itemId then none else itemsTbl k
        match billsTbl item.bill_id with
        | none => .ok (itemsTbl', billsTbl)
        | some bill =>
            let bill' := deleteItemHeaderUpdate bill item.total_price now
            .ok (itemsTbl', fun k => if k = item.bill_id then some bill' else billsTbl k)

/-- The dict comprehension `{item["item_id"]: item for item in existing_items}` of
`save_bill_items`: a later entry with the same key overwrites an earlier one. -/
def existingMap : List ItemRecord → String → Option ItemRecord
  | [], _ => none
  | r :: rest, id =>
      match existingMap rest id with
      | some r' => some r'
      | none => if r.item_id = id then some r else none

/-- The row written by the put loop of `save_bill_items` for one processed item:
`reference_images` and `created_at` are taken from the existing row with the same id
when there is one, otherwise an empty list and a fresh timestamp. -/
def mkItemRecord (billId : String) (existing : Option ItemRecord) (now : ℤ)
    (it : ProcessedItem) : ItemRecord :=
  { item_id := it.id
  , bill_id := billId
  , type := it.type
  , name := it.name
  , description := it.description
  , quantity := it.quantity
  , unit_price := it.unitPrice
  , total_price := it.totalPrice
  , config_item_id := it.configItemId
  , material_source := it.materialSource
  , delivery_status := it.deliveryStatus
  , internal_notes := it.internalNotes
  , reference_images := match existing with | some e => e.reference_images | none => []
  , created_at := match existing with | some e => e.created_at | none => now
  , updated_at := now }

/-- The delete loop of `save_bill_items`: every existing row whose id is not among
the new item ids is removed from the table. -/
def deletePhase (newIds : List String) : List ItemRecord →
    (String → Option ItemRecord) → (String → Option ItemRecord)
  | [], tbl => tbl
  | r :: rest, tbl =>
      if r.item_id ∈ newIds then deletePhase newIds rest tbl
      else deletePhase newIds rest (fun k => if k = r.item_id then none else tbl k)

/-- The put loop of `save_bill_items`: every processed item is upserted, with the
merge against the map of the ORIGINAL existing rows. -/
def putPhase (billId : String) (exMap : String → Option ItemRecord) (now : ℤ) :
    List ProcessedItem → (String → Option ItemRecord) → (String → Option ItemRecord)
  | [], tbl => tbl
  | it :: rest, tbl =>
      putPhase billId exMap now rest
        (fun k => if k = it.id then some (mkItemRecord billId (exMap it.id) now it) else tbl k)

/-- `save_bill_items`: diff based replace of the ledger rows of one bill. `existing`
is the query result for the bill id (the rows of the table owned by `billId`), `tbl`
the BillItems table; the result is the table after the delete loop and the put loop. -/
def save_bill_items (billId : String) (existing : List ItemRecord)
    (items : List ProcessedItem) (now : ℤ) (tbl : String → Option ItemRecord) :
    String → Option ItemRecord :=
  putPhase billId (existingMap existing) now items
    (deletePhase (items.map ProcessedItem.id) existing tbl)

/-- The scan filter of `get_bills` restricted to the delivery status dimension: the
source adds `Attr("delivery_status").eq(ds)` to the scan ONLY when the filter value
is truthy and different from "pending" (a DynamoDB attribute equality is false when
the attribute is absent). -/
def scanKeepsDelivery (dsFilter : Option String) (b : BillRecord) : Bool :=
  match dsFilter with
  | none => true
  | some ds =>
      if ds != "" && ds != "pending" then b.delivery_status == some ds else true

/-- The response shaping of `get_bills` for the delivery status of one bill:
`item.get("delivery_status") or "pending"`. -/
def viewDeliveryStatus (b : BillRecord) : String := orPending b.delivery_status

/-- The post-scan filter of `get_bills`: applied only when the filter value is
exactly "pending", keeping the bills whose shaped delivery status is "pending". -/
def postKeepsDelivery (dsFilter : Option String) (b : BillRecord) : Bool :=
  if dsFilter == some "pending" then viewDeliveryStatus b == "pending" else true

/-- Whether one stored bill appears in the `get_bills` result for a delivery status
filter: it must pass the scan filter and the post-scan filter. -/
def billListed (dsFilter : Option String) (b : BillRecord) : Bool :=
  scanKeepsDelivery dsFilter b && postKeepsDelivery dsFilter b

/-- The paid amount as recomputed by `get_bill_by_id` and `get_bills` on every read:
the fresh sum over the stored payments, ignoring the stored `paid_amount`. -/
def readPaid (b : BillRecord) : ℚ := paySum b.payments

/-- The status as recomputed by `get_bill_by_id` and `get_bills` on every read,
derived from the stored total and the fresh payment sum; the stored `status`
attribute is never consulted. -/
def readStatus (b : BillRecord) : String :=
  derive_status (b.total_amount - readPaid b) (readPaid b)

/-- The Bills-table rows reachable through the five mutating bill operations,
starting from a row created by `add_bill`. -/
inductive Reachable : BillRecord → Prop
  | create (req : AddBillRequest) (billId billNumber : String)
      (itemIds recvIds payIds : ℕ → String) (now : ℤ) (b : BillRecord)
      (items : List ProcessedItem) :
      add_bill req billId billNumber itemIds recvIds payIds now = .ok (b, items) →
      Reachable b
  | update (req : UpdateBillRequest) (billId : String) (itemIds recvIds : ℕ → String)
      (now : ℤ) (b b' : BillRecord) (items : List ProcessedItem) :
      Reachable b →
      update_bill req billId (some b) itemIds recvIds now = .ok (b', items) →
      Reachable b'
  | addPay (billId : String) (body : PaymentBody) (payId : String) (now : ℤ)
      (b b' : BillRecord) :
      Reachable b → add_payment billId body (some b) payId now = .ok b' →
      Reachable b'
  | updatePay (billId payId : String) (body : PaymentBody) (now : ℤ) (b b' : BillRecord) :
      Reachable b → update_payment billId payId body (some b) now = .ok b' →
      Reachable b'
  | deletePay (billId payId : String) (now : ℤ) (b b' : BillRecord) :
      Reachable b → delete_payment billId payId (some b) now = .ok b' →
      Reachable b'

/-- The amount invariant of a stored bill row: the persisted `paid_amount` is the
exact sum of the embedded payment amounts and the persisted `outstanding_amount` is
the total minus the paid amount. -/
def BillInv (b : BillRecord) : Prop :=
  b.paid_amount = paySum b.payments ∧
  b.outstanding_amount = b.total_amount - b.paid_amount

theorem paySum_nil : paySum [] = 0 := rfl

theorem paySum_cons (p : Payment) (ps : List Payment) :
    paySum (p :: ps) = p.amount + paySum ps := by
  simp [paySum]

theorem paySum_append_single (ps : List Payment) (p : Payment) :
    paySum (ps ++ [p]) = paySum ps + p.amount := by
  simp [paySum]

/-- The final running sum returned by the payment loop of `add_bill` is the starting
sum plus the amounts of the payments it produced. -/
theorem process_payments_ok_sum (total : ℚ) (bd : String) (now : ℤ) (ids : ℕ → String)
    (ps : List PaymentInput) : ∀ (n : ℕ) (paid0 : ℚ) (l : List Payment) (f : ℚ),
    process_payments total bd now ids n ps paid0 = .ok (l, f) → f = paid0 + paySum l := by
  induction ps with
  | nil =>
      intro n paid0 l f h
      simp only [process_payments, Except.ok.injEq, Prod.mk.injEq] at h
      obtain ⟨rfl, rfl⟩ := h
      simp [paySum]
  | cons p rest ih =>
      intro n paid0 l f h
      rw [process_payments] at h
      split at h
      · exact ih n paid0 l f h
      · split at h
        · cases h
        · split at h
          · cases h
          · next tail fp heq =>
              obtain ⟨rfl, rfl⟩ := Prod.mk.injEq .. ▸ (Except.ok.inj h)
              have hf := ih _ _ _ _ heq
              rw [paySum_cons]
              linarith


/-- Success characterization of `add_payment` on an existing bill. -/
theorem add_payment_ok (billId : String) (body : PaymentBody) (b : BillRecord)
    (payId : String) (now : ℤ) (b' : BillRecord)
    (h : add_payment billId body (some b) payId now = .ok b') :
    b' = { b with
           payments := b.payments ++
             [{ id := payId, amount := body.amount.getD 0
              , paymentDate := body.paymentDate.getD ""
              , paymentMethod := body.paymentMethod.getD ""
              , notes := body.notes.getD "", createdAt := now }]
         , paid_amount := b.paid_amount + body.amount.getD 0
         , outstanding_amount := b.total_amount - (b.paid_amount + body.amount.getD 0)
         , status := derive_status (b.total_amount - (b.paid_amount + body.amount.getD 0))
             (b.paid_amount + body.amount.getD 0)
         , updated_at := now } := by
  simp only [add_payment] at h
  split at h
  · cases h
  · split at h
    · cases h
    · exact (Except.ok.inj h).symm

/-- Success characterization of `update_payment` on an existing bill. -/
theorem update_payment_ok (billId payId : String) (body : PaymentBody) (b : BillRecord)
    (now : ℤ) (b' : BillRecord)
    (h : update_payment billId payId body (some b) now = .ok b') :
    ∃ ps, replacePayment payId (body.amount.getD 0) (body.paymentDate.getD "")
        (body.paymentMethod.getD "") (body.notes.getD "") b.payments = some ps ∧
      b' = { b with
             payments := ps
           , paid_amount := paySum ps
           , outstanding_amount := b.total_amount - paySum ps
           , status := derive_status (b.total_amount - paySum ps) (paySum ps)
           , updated_at := now } := by
  simp only [update_payment] at h
  split at h
  · cases h
  · split at h
    · cases h
    · next ps heq => exact ⟨ps, heq, (Except.ok.inj h).symm⟩

/-- Success characterization of `delete_payment` on an existing bill. -/
theorem delete_payment_ok (billId payId : String) (b : BillRecord) (now : ℤ)
    (b' : BillRecord) (h : delete_payment billId payId (some b) now = .ok b') :
    ∃ ps, removePayment payId b.payments = some ps ∧
      b' = { b with
             payments := ps
           , paid_amount := paySum ps
           , outstanding_amount := b.total_amount - paySum ps
           , status := derive_status (b.total_amount - paySum ps) (paySum ps)
           , updated_at := now } := by
  simp only [delete_payment] at h
  split at h
  · cases h
  · split at h
    · cases h
    · next ps heq => exact ⟨ps, heq, (Except.ok.inj h).symm⟩

/-- Success characterization of `update_bill` on an existing bill. -/
theorem update_bill_ok (req : UpdateBillRequest) (billId : String) (b : BillRecord)
    (itemIds recvIds : ℕ → String) (now : ℤ) (b' : BillRecord)
    (items' : List ProcessedItem)
    (h : update_bill req billId (some b) itemIds recvIds now = .ok (b', items')) :
    b' = { b with
           customer_id := req.customerId.getD ""
         , billing_date := req.billingDate.getD ""
         , delivery_date := req.deliveryDate.getD ""
         , delivery_status := some (req.deliveryStatus.getD "pending")
         , received_items := processReceivedsUpdate recvIds 0 req.receivedItems
         , total_amount := itemsTotal req.items
         , outstanding_amount := itemsTotal req.items - b.paid_amount
         , status := derive_status (itemsTotal req.items - b.paid_amount) b.paid_amount
         , discount := req.discount.getD 0
         , notes := req.notes.getD ""
         , updated_at := now } ∧
    items' = processItemsUpdate itemIds 0 req.items := by
  simp only [update_bill] at h
  split at h
  · cases h
  · obtain ⟨h1, h2⟩ := Prod.mk.injEq .. ▸ Except.ok.inj h
    exact ⟨h1.symm, h2.symm⟩

/-- Success characterization of `add_bill`. -/
theorem add_bill_ok (req : AddBillRequest) (billId billNumber : String)
    (itemIds recvIds payIds : ℕ → String) (now : ℤ) (b : BillRecord)
    (items : List ProcessedItem)
    (h : add_bill req billId billNumber itemIds recvIds payIds now = .ok (b, items)) :
    ∃ pays paid,
      process_payments (itemsTotal req.items) (req.billingDate.getD "") now payIds 0
        req.payments 0 = .ok (pays, paid) ∧
      b = { bill_id := billId
          , customer_id := req.customerId.getD ""
          , bill_number := billNumber
          , billing_date := req.billingDate.getD ""
          , delivery_date := req.deliveryDate.getD ""
          , delivery_status := some (req.deliveryStatus.getD "pending")
          , received_items := processReceivedsCreate recvIds 0 req.receivedItems
          , total_amount := itemsTotal req.items
          , paid_amount := paid
          , outstanding_amount := itemsTotal req.items - paid
          , status := derive_status (itemsTotal req.items - paid) paid
          , payments := pays
          , discount := req.discount.getD 0
          , notes := req.notes.getD ""
          , created_at := now
          , updated_at := now } ∧
      items = processItemsCreate itemIds 0 req.items := by
  simp only [add_bill] at h
  split at h
  · cases h
  · split at h
    · cases h
    · next pays paid heq =>
        obtain ⟨h1, h2⟩ := Prod.mk.injEq .. ▸ Except.ok.inj h
        exact ⟨pays, paid, heq, h1.symm, h2.symm⟩

/-- Every Bills-table row reachable through the five mutating operations satisfies
the amount invariant: the persisted paid amount is the exact payment sum and the
persisted outstanding amount is the total minus the paid amount. -/
theorem reachable_billInv (b : BillRecord) (h : Reachable b) : BillInv b := by
  induction h with
  | create req billId billNumber itemIds recvIds payIds now b items heq =>
      obtain ⟨pays, paid, hpp, rfl, -⟩ :=
        add_bill_ok req billId billNumber itemIds recvIds payIds now b items heq
      have hsum := process_payments_ok_sum _ _ _ _ _ _ _ _ _ hpp
      constructor
      · simpa using hsum
      · rfl
  | update req billId itemIds recvIds now b b' items hb heq ih =>
      obtain ⟨rfl, -⟩ := update_bill_ok req billId b itemIds recvIds now b' items heq
      obtain ⟨ih1, -⟩ := ih
      exact ⟨ih1, rfl⟩
  | addPay billId body payId now b b' hb heq ih =>
      have hb' := add_payment_ok billId body b payId now b' heq
      subst hb'
      obtain ⟨ih1, -⟩ := ih
      constructor
      · simp [paySum_append_single, ih1]
      · rfl
  | updatePay billId payId body now b b' hb heq ih =>
      obtain ⟨ps, -, rfl⟩ := update_payment_ok billId payId body b now b' heq
      exact ⟨rfl, rfl⟩
  | deletePay billId payId now b b' hb heq ih =>
      obtain ⟨ps, -, rfl⟩ := delete_payment_ok billId payId b now b' heq
      exact ⟨rfl, rfl⟩

/-- Deterministic id generators for the concrete examples. -/
def constIds (s : String) : ℕ → String := fun n => s ++ toString n

/-- A minimal line item input: one unit at the given price. -/
def oneItem (price : ℚ) : ItemInput :=
  { id := none, type := none, name := none, description := none
  , quantity := some 1, unitPrice := some price, totalPrice := none
  , configItemId := none, materialSource := none, deliveryStatus := none
  , internalNotes := none }

/-- A minimal payment input with the given amount. -/
def onePay (amt : ℚ) : PaymentInput :=
  { amount := some amt, paymentDate := none, paymentMethod := none, notes := none }

/-- A minimal create request: one line item with the given price, the given payments. -/
def mkReq (price : ℚ) (pays : List PaymentInput) : AddBillRequest :=
  { customerId := some "cust-1", billingDate := some "2026-01-01"
  , deliveryDate := some "2026-02-01", deliveryStatus := none
  , items := [oneItem price], receivedItems := [], payments := pays
  , discount := none, notes := none }

/-- The concrete bill created by `mkReq 100 []`: one item worth 100, no payments. -/
def sampleBill : BillRecord :=
  { bill_id := "bill-1", customer_id := "cust-1", bill_number := "B1"
  , billing_date := "2026-01-01", delivery_date := "2026-02-01"
  , delivery_status := some "pending", received_items := []
  , total_amount := 100, paid_amount := 0, outstanding_amount := 100
  , status := "unpaid", payments := [], discount := 0, notes := ""
  , created_at := 0, updated_at := 0 }

/-- The processed item of the sample creation. -/
def sampleItem100 : ProcessedItem :=
  { id := "item-0", type := "custom", name := none, description := ""
  , quantity := 1, unitPrice := 100, totalPrice := 100, configItemId := none
  , materialSource := "customer", deliveryStatus := "pending", internalNotes := "" }

theorem sampleBill_create :
    add_bill (mkReq 100 []) "bill-1" "B1" (constIds "item-") (constIds "recv-")
      (constIds "pay-") 0 = .ok (sampleBill, [sampleItem100]) := by
  simp [add_bill, mkReq, oneItem, itemsTotal, processItemsCreate, processItemCreate,
    processItemFields, processReceivedsCreate, process_payments, strTruthy,
    derive_status, constIds, sampleBill, sampleItem100]
  rfl

theorem sampleBill_reachable : Reachable sampleBill :=
  .create (mkReq 100 []) "bill-1" "B1" (constIds "item-") (constIds "recv-")
    (constIds "pay-") 0 sampleBill [sampleItem100] sampleBill_create

/-- The bill created with one item worth 10 and one initial payment of 1/1000. -/
def c1Bill : BillRecord :=
  { bill_id := "bill-c1", customer_id := "cust-1", bill_number := "B1"
  , billing_date := "2026-01-01", delivery_date := "2026-02-01"
  , delivery_status := some "pending", received_items := []
  , total_amount := 10, paid_amount := 1/1000, outstanding_amount := 9999/1000
  , status := "partially_paid"
  , payments := [{ id := "pay-0", amount := 1/1000, paymentDate := "2026-01-01"
                 , paymentMethod := "cash", notes := "", createdAt := 0 }]
  , discount := 0, notes := "", created_at := 0, updated_at := 0 }

/-- The processed item of the `c1Bill` creation. -/
def c1Item : ProcessedItem :=
  { id := "item-0", type := "custom", name := none, description := ""
  , quantity := 1, unitPrice := 10, totalPrice := 10, configItemId := none
  , materialSource := "customer", deliveryStatus := "pending", internalNotes := "" }

/-- C1, counterexample: the bill created from a single initial payment of amount
1/1000 is reachable via Create and persists `paid_amount = 1/1000`, the EXACT payment
sum; rounding that sum to two decimal places gives 0, so the persisted paidAmount is
NOT the rounded payment sum the claim asserts. -/
theorem C1_paid_rounding_counterexample :
    add_bill (mkReq 10 [onePay (1/1000)]) "bill-c1" "B1" (constIds "item-")
      (constIds "recv-") (constIds "pay-") 0 = .ok (c1Bill, [c1Item]) ∧
    Reachable c1Bill ∧
    c1Bill.paid_amount = paySum c1Bill.payments ∧
    round2 (paySum c1Bill.payments) = 0 ∧
    c1Bill.paid_amount ≠ round2 (paySum c1Bill.payments) := by
  have hc : add_bill (mkReq 10 [onePay (1/1000)]) "bill-c1" "B1" (constIds "item-")
      (constIds "recv-") (constIds "pay-") 0 = .ok (c1Bill, [c1Item]) := by
    norm_num [add_bill, mkReq, oneItem, onePay, itemsTotal, processItemsCreate,
      processItemCreate, processItemFields, processReceivedsCreate, process_payments,
      strTruthy, derive_status, constIds, c1Bill, c1Item]
    rfl
  have hsum : paySum c1Bill.payments = 1/1000 := by simp [c1Bill, paySum]
  have hround : round2 (paySum c1Bill.payments) = 0 := by
    rw [hsum, round2]
    norm_num [Rat.floor_def]
  refine ⟨hc, .create _ _ _ _ _ _ _ _ _ hc, by rw [hsum]; rfl, hround, ?_⟩
  rw [hround]
  show (1 : ℚ)/1000 ≠ 0
  norm_num

/-- C1 (amended): for every Bill state reachable via Create, Update, AddPayment,
UpdatePayment or DeletePayment, the persisted paidAmount equals the EXACT sum of the
amounts of the embedded payments (the source never rounds), and the persisted
outstandingAmount equals totalAmount minus paidAmount. -/
theorem C1_reachable_amount_invariant (b : BillRecord) (h : Reachable b) :
    b.paid_amount = paySum b.payments ∧
    b.outstanding_amount = b.total_amount - b.paid_amount :=
  reachable_billInv b h

/-- Witness for C1: the amended invariant evaluated on the concrete sample bill. -/
theorem C1_reachable_amount_invariant_witness :
    sampleBill.paid_amount = paySum sampleBill.payments ∧
    sampleBill.outstanding_amount = sampleBill.total_amount - sampleBill.paid_amount :=
  C1_reachable_amount_invariant sampleBill sampleBill_reachable

/-- C2 (amended): for all (totalAmount, paidAmount) pairs, the derived status is
`fully_paid` iff totalAmount - paidAmount <= 0, `partially_paid` iff the outstanding
amount is positive AND paidAmount is positive, and `unpaid` iff the outstanding
amount is positive and paidAmount <= 0 (a non positive paidAmount yields `unpaid`,
not `partially_paid`); moreover the status recomputed on every read never consults
the stored status attribute. -/
theorem C2_status_rule :
    (∀ total paid : ℚ,
      (derive_status (total - paid) paid = "fully_paid" ↔ total - paid ≤ 0) ∧
      (derive_status (total - paid) paid = "partially_paid" ↔
        0 < total - paid ∧ 0 < paid) ∧
      (derive_status (total - paid) paid = "unpaid" ↔ 0 < total - paid ∧ paid ≤ 0)) ∧
    (∀ (b : BillRecord) (s : String), readStatus { b with status := s } = readStatus b) := by
  refine ⟨?_, fun b s => rfl⟩
  intro total paid
  by_cases h1 : total - paid ≤ 0
  · rw [derive_status, if_pos h1]
    exact ⟨⟨fun _ => h1, fun _ => rfl⟩,
      ⟨fun hh => absurd hh (by decide), fun hc => absurd h1 (not_le.mpr hc.1)⟩,
      ⟨fun hh => absurd hh (by decide), fun hc => absurd h1 (not_le.mpr hc.1)⟩⟩
  · have h1' : 0 < total - paid := lt_of_not_le h1
    by_cases h2 : 0 < paid
    · rw [derive_status, if_neg h1, if_pos h2]
      exact ⟨⟨fun hh => absurd hh (by decide), fun hc => absurd hc h1⟩,
        ⟨fun _ => ⟨h1', h2⟩, fun _ => rfl⟩,
        ⟨fun hh => absurd hh (by decide), fun hc => absurd h2 (not_lt.mpr hc.2)⟩⟩
    · rw [derive_status, if_neg h1, if_neg h2]
      exact ⟨⟨fun hh => absurd hh (by decide), fun hc => absurd hc h1⟩,
        ⟨fun hh => absurd hh (by decide), fun hc => absurd hc.2 h2⟩,
        ⟨fun _ => ⟨h1', not_lt.mp h2⟩, fun _ => rfl⟩⟩

/-- The bill created with one item worth 10 and one initial payment of 5. -/
def c2Bill : BillRecord :=
  { bill_id := "bill-2", customer_id := "cust-1", bill_number := "B2"
  , billing_date := "2026-01-01", delivery_date := "2026-02-01"
  , delivery_status := some "pending", received_items := []
  , total_amount := 10, paid_amount := 5, outstanding_amount := 5
  , status := "partially_paid"
  , payments := [{ id := "pay-0", amount := 5, paymentDate := "2026-01-01"
                 , paymentMethod := "cash", notes := "", createdAt := 0 }]
  , discount := 0, notes := "", created_at := 0, updated_at := 0 }

/-- The processed item of the `c2Bill` creation. -/
def c2Item : ProcessedItem :=
  { id := "item-0", type := "custom", name := none, description := ""
  , quantity := 1, unitPrice := 10, totalPrice := 10, configItemId := none
  , materialSource := "customer", deliveryStatus := "pending", internalNotes := "" }

/-- The body that amends the payment of `c2Bill` to the amount -5: a negative amount
is truthy in Python, so `update_payment` accepts it. -/
def c2Body : PaymentBody :=
  { amount := some (-5), paymentDate := some "2026-01-03"
  , paymentMethod := some "cash", notes := none }

/-- The bill after the payment of `c2Bill` is amended to -5. -/
def c2BillAfter : BillRecord :=
  { bill_id := "bill-2", customer_id := "cust-1", bill_number := "B2"
  , billing_date := "2026-01-01", delivery_date := "2026-02-01"
  , delivery_status := some "pending", received_items := []
  , total_amount := 10, paid_amount := -5, outstanding_amount := 15
  , status := "unpaid"
  , payments := [{ id := "pay-0", amount := -5, paymentDate := "2026-01-03"
                 , paymentMethod := "cash", notes := "", createdAt := 0 }]
  , discount := 0, notes := "", created_at := 0, updated_at := 1 }

/-- C2, counterexample: the pair (totalAmount, paidAmount) = (10, -5) arises in
UpdatePayment (a negative amount passes the truthiness check), and the code derives
status "unpaid" for it, while the claim rule (`unpaid` only when paidAmount == 0,
`partially_paid` otherwise) demands "partially_paid". -/
theorem C2_negative_paid_counterexample :
    add_bill (mkReq 10 [onePay 5]) "bill-2" "B2" (constIds "item-") (constIds "recv-")
      (constIds "pay-") 0 = .ok (c2Bill, [c2Item]) ∧
    update_payment "bill-2" "pay-0" c2Body (some c2Bill) 1 = .ok c2BillAfter ∧
    Reachable c2BillAfter ∧
    c2BillAfter.total_amount = 10 ∧ c2BillAfter.paid_amount = -5 ∧
    c2BillAfter.status = "unpaid" ∧
    spec_status c2BillAfter.total_amount c2BillAfter.paid_amount = "partially_paid" ∧
    c2BillAfter.status ≠ spec_status c2BillAfter.total_amount c2BillAfter.paid_amount := by
  have h1 : add_bill (mkReq 10 [onePay 5]) "bill-2" "B2" (constIds "item-")
      (constIds "recv-") (constIds "pay-") 0 = .ok (c2Bill, [c2Item]) := by
    norm_num [add_bill, mkReq, oneItem, onePay, itemsTotal, processItemsCreate,
      processItemCreate, processItemFields, processReceivedsCreate, process_payments,
      strTruthy, derive_status, constIds, c2Bill, c2Item]
    rfl
  have h2 : update_payment "bill-2" "pay-0" c2Body (some c2Bill) 1 = .ok c2BillAfter := by
    norm_num [update_payment, c2Body, c2Bill, numTruthy, strTruthy, replacePayment,
      paySum, derive_status, c2BillAfter]
    rintro (((h | h) | h) | h) <;> exact absurd h (by decide)
  have hspec : spec_status c2BillAfter.total_amount c2BillAfter.paid_amount
      = "partially_paid" := by
    norm_num [spec_status, c2BillAfter]
  refine ⟨h1, h2, ?_, rfl, rfl, rfl, hspec, ?_⟩
  · exact .updatePay "bill-2" "pay-0" c2Body 1 c2Bill c2BillAfter
      (.create _ _ _ _ _ _ _ _ _ h1) h2
  · rw [hspec]
    decide

/-- The sum of the positive payment amounts of a create request: exactly the amounts
the payment loop of `add_bill` accumulates, since non positive amounts are skipped. -/
def positivePaySum (ps : List PaymentInput) : ℚ :=
  ((ps.map fun p => p.amount.getD 0).filter fun a => decide (0 < a)).sum

theorem positivePaySum_nil : positivePaySum [] = 0 := rfl

theorem positivePaySum_cons (p : PaymentInput) (rest : List PaymentInput) :
    positivePaySum (p :: rest) =
      if 0 < p.amount.getD 0 then p.amount.getD 0 + positivePaySum rest
      else positivePaySum rest := by
  by_cases h : 0 < p.amount.getD 0 <;> simp [positivePaySum, h]

/-- The payment loop errs exactly with the ceiling message whenever the positive
amounts would push the running sum above the bill total. -/
theorem process_payments_exceeds (total : ℚ) (bd : String) (now : ℤ) (ids : ℕ → String)
    (ps : List PaymentInput) : ∀ (n : ℕ) (paid : ℚ), paid ≤ total →
    total < paid + positivePaySum ps →
    process_payments total bd now ids n ps paid
      = .error "Total payment amount cannot exceed bill total." := by
  induction ps with
  | nil =>
      intro n paid hle h
      rw [positivePaySum_nil, add_zero] at h
      exact absurd h (not_lt.mpr hle)
  | cons p rest ih =>
      intro n paid hle h
      rw [positivePaySum_cons] at h
      rw [process_payments]
      by_cases hp : 0 < p.amount.getD 0
      · rw [if_pos hp] at h
        rw [if_neg (not_le.mpr hp)]
        by_cases hover : total < paid + p.amount.getD 0
        · rw [if_pos hover]
        · rw [if_neg hover]
          rw [ih (n + 1) (paid + p.amount.getD 0) (not_lt.mp hover) (by linarith)]
      · rw [if_neg hp] at h
        rw [if_pos (not_lt.mp hp)]
        exact ih n paid hle h

/-- The payment loop succeeds whenever the positive amounts stay within the bill
total, and the final running sum is the starting sum plus the positive amount sum. -/
theorem process_payments_within (total : ℚ) (bd : String) (now : ℤ) (ids : ℕ → String)
    (ps : List PaymentInput) : ∀ (n : ℕ) (paid : ℚ),
    paid + positivePaySum ps ≤ total →
    ∃ l, process_payments total bd now ids n ps paid
      = .ok (l, paid + positivePaySum ps) := by
  induction ps with
  | nil =>
      intro n paid h
      exact ⟨[], by rw [positivePaySum_nil, add_zero]; rfl⟩
  | cons p rest ih =>
      intro n paid h
      rw [positivePaySum_cons] at h ⊢
      rw [process_payments]
      by_cases hp : 0 < p.amount.getD 0
      · rw [if_pos hp] at h ⊢
        have hnonneg : 0 ≤ positivePaySum rest := by
          refine List.sum_nonneg ?_
          intro a ha
          simp only [List.mem_filter, decide_eq_true_eq] at ha
          exact le_of_lt ha.2
        rw [if_neg (not_le.mpr hp), if_neg (by linarith : ¬ total < paid + p.amount.getD 0)]
        obtain ⟨l, hl⟩ := ih (n + 1) (paid + p.amount.getD 0) (by linarith)
        rw [hl]
        exact ⟨_, by rw [add_assoc]⟩
      · rw [if_neg hp] at h ⊢
        rw [if_pos (not_lt.mp hp)]
        exact ih n paid h

/-- The bill created by `mkReq 10 [onePay (-5)]`: the non positive payment was
silently skipped, the creation succeeded and no payment was persisted. -/
def c3Bill : BillRecord :=
  { bill_id := "bill-3", customer_id := "cust-1", bill_number := "B3"
  , billing_date := "2026-01-01", delivery_date := "2026-02-01"
  , delivery_status := some "pending", received_items := []
  , total_amount := 10, paid_amount := 0, outstanding_amount := 10
  , status := "unpaid", payments := [], discount := 0, notes := ""
  , created_at := 0, updated_at := 0 }

/-- The processed item of the `c3Bill` creation. -/
def c3Item : ProcessedItem :=
  { id := "item-0", type := "custom", name := none, description := ""
  , quantity := 1, unitPrice := 10, totalPrice := 10, configItemId := none
  , materialSource := "customer", deliveryStatus := "pending", internalNotes := "" }

/-- C3, counterexample: a Create request listing a payment with the non positive
amount -5 does NOT fail: the creation succeeds (no ValidationError is returned) and
the offending payment is silently dropped from the persisted bill. -/
theorem C3_nonpositive_payment_counterexample :
    (mkReq 10 [onePay (-5)]).payments = [onePay (-5)] ∧
    (onePay (-5)).amount.getD 0 ≤ 0 ∧
    add_bill (mkReq 10 [onePay (-5)]) "bill-3" "B3" (constIds "item-")
      (constIds "recv-") (constIds "pay-") 0 = .ok (c3Bill, [c3Item]) ∧
    c3Bill.payments = [] ∧ c3Bill.status = "unpaid" := by
  refine ⟨rfl, by norm_num [onePay], ?_, rfl, rfl⟩
  norm_num [add_bill, mkReq, oneItem, onePay, validCreate, itemsTotal,
    processItemsCreate, processItemCreate, processItemFields, processReceivedsCreate,
    process_payments, strTruthy, derive_status, constIds, c3Bill, c3Item]
  rfl

/-- C3 (amended): in Create, a listed payment with amount <= 0 is silently skipped
(neither persisted nor an error); a payment pushing the running sum of the positive
amounts above the computed totalAmount fails the whole creation with the 400 ceiling
error before anything is persisted; and when the (positive) payment amounts sum to
exactly totalAmount the creation succeeds with status fully_paid. -/
theorem C3_create_payment_rules :
    (∀ (total : ℚ) (bd : String) (now : ℤ) (ids : ℕ → String) (n : ℕ)
       (p : PaymentInput) (rest : List PaymentInput) (paid : ℚ),
       p.amount.getD 0 ≤ 0 →
       process_payments total bd now ids n (p :: rest) paid
         = process_payments total bd now ids n rest paid) ∧
    (∀ (req : AddBillRequest) (billId billNumber : String)
       (itemIds recvIds payIds : ℕ → String) (now : ℤ),
       validCreate req = true →
       0 ≤ itemsTotal req.items →
       itemsTotal req.items < positivePaySum req.payments →
       add_bill req billId billNumber itemIds recvIds payIds now
         = .error "Total payment amount cannot exceed bill total.") ∧
    (∀ (req : AddBillRequest) (billId billNumber : String)
       (itemIds recvIds payIds : ℕ → String) (now : ℤ),
       validCreate req = true →
       positivePaySum req.payments = itemsTotal req.items →
       ∃ b items,
         add_bill req billId billNumber itemIds recvIds payIds now = .ok (b, items) ∧
         b.paid_amount = itemsTotal req.items ∧ b.status = "fully_paid") := by
  refine ⟨?_, ?_, ?_⟩
  · intro total bd now ids n p rest paid hp
    rw [process_payments, if_pos hp]
  · intro req billId billNumber itemIds recvIds payIds now hvalid h0 hover
    rw [add_bill, hvalid]
    simp only [Bool.not_true, Bool.false_eq_true, if_false]
    rw [process_payments_exceeds (itemsTotal req.items) (req.billingDate.getD "") now
      payIds req.payments 0 0 h0 (by linarith)]
  · intro req billId billNumber itemIds recvIds payIds now hvalid hsum
    obtain ⟨l, hl⟩ := process_payments_within (itemsTotal req.items)
      (req.billingDate.getD "") now payIds req.payments 0 0 (by rw [hsum, zero_add])
    rw [zero_add, hsum] at hl
    refine ⟨({ bill_id := billId,
               customer_id := req.customerId.getD "",
               bill_number := billNumber,
               billing_date := req.billingDate.getD "",
               delivery_date := req.deliveryDate.getD "",
               delivery_status := some (req.deliveryStatus.getD "pending"),
               received_items := processReceivedsCreate recvIds 0 req.receivedItems,
               total_amount := itemsTotal req.items,
               paid_amount := itemsTotal req.items,
               outstanding_amount := itemsTotal req.items - itemsTotal req.items,
               status := derive_status (itemsTotal req.items - itemsTotal req.items)
                 (itemsTotal req.items),
               payments := l,
               discount := req.discount.getD 0,
               notes := req.notes.getD "",
               created_at := now, updated_at := now } : BillRecord),
      processItemsCreate itemIds 0 req.items, ?_, rfl, ?_⟩
    · rw [add_bill, hvalid]
      simp only [Bool.not_true, Bool.false_eq_true, if_false]
      rw [hl]
    · show derive_status (itemsTotal req.items - itemsTotal req.items) _ = _
      rw [sub_self, derive_status, if_pos le_rfl]

/-- Witness for C3: with items totaling 1000, payments of 600 and 401 fail the whole
creation with the ceiling error, while payments of 600 and 400 succeed with status
fully_paid, exactly the scenario of the specification. -/
theorem C3_create_payment_rules_witness :
    add_bill (mkReq 1000 [onePay 600, onePay 401]) "bill-3a" "B3" (constIds "item-")
      (constIds "recv-") (constIds "pay-") 0
      = .error "Total payment amount cannot exceed bill total." ∧
    (∃ b items,
      add_bill (mkReq 1000 [onePay 600, onePay 400]) "bill-3b" "B3" (constIds "item-")
        (constIds "recv-") (constIds "pay-") 0 = .ok (b, items) ∧
      b.paid_amount = itemsTotal (mkReq 1000 [onePay 600, onePay 400]).items ∧
      b.status = "fully_paid") := by
  constructor
  · refine C3_create_payment_rules.2.1 _ _ _ _ _ _ _ (by rfl) ?_ ?_
    · norm_num [mkReq, oneItem, itemsTotal]
    · norm_num [mkReq, oneItem, onePay, itemsTotal, positivePaySum]
  · refine C3_create_payment_rules.2.2 _ _ _ _ _ _ _ (by rfl) ?_
    norm_num [mkReq, oneItem, onePay, itemsTotal, positivePaySum]

/-- C4: on a reachable (hence invariant satisfying) existing bill, AddPayment with a
missing or zero amount is a 400 required-field error; with a nonzero amount
exceeding the outstanding amount (the stored `outstanding_amount`, which equals
totalAmount minus the stored paidAmount on every reachable bill) it fails with the
ceiling error; otherwise it appends the payment and persists paidAmount increased by
exactly the payment amount. -/
theorem C4_add_payment_rules (b : BillRecord) (body : PaymentBody) (billId payId : String)
    (now : ℤ) (hreach : Reachable b) (hb : billId ≠ "")
    (hd : strTruthy body.paymentDate = true) (hm : strTruthy body.paymentMethod = true) :
    ((body.amount = none ∨ body.amount = some 0) →
      add_payment billId body (some b) payId now
        = .error "Bill ID, amount, payment date, and payment method are required.") ∧
    (∀ a : ℚ, body.amount = some a → a ≠ 0 →
      (b.total_amount - b.paid_amount < a →
        add_payment billId body (some b) payId now
          = .error "Payment amount cannot exceed outstanding balance.") ∧
      (a ≤ b.total_amount - b.paid_amount →
        add_payment billId body (some b) payId now
          = .ok { b with
                  payments := b.payments ++
                    [{ id := payId, amount := a,
                       paymentDate := body.paymentDate.getD "",
                       paymentMethod := body.paymentMethod.getD "",
                       notes := body.notes.getD "", createdAt := now }],
                  paid_amount := b.paid_amount + a,
                  outstanding_amount := b.total_amount - (b.paid_amount + a),
                  status := derive_status (b.total_amount - (b.paid_amount + a))
                    (b.paid_amount + a),
                  updated_at := now })) := by
  have hout : b.outstanding_amount = b.total_amount - b.paid_amount :=
    (reachable_billInv b hreach).2
  have hb' : (billId != "") = true := by simpa using hb
  constructor
  · intro ham
    have hnum : numTruthy body.amount = false := by
      rcases ham with h | h <;> simp [numTruthy, h]
    rw [add_payment, hb', hd, hm, hnum]
    rfl
  · intro a ha hne
    have hnum : numTruthy body.amount = true := by simp [numTruthy, ha, hne]
    have hred : add_payment billId body (some b) payId now
        = (if b.outstanding_amount < a then
            .error "Payment amount cannot exceed outstanding balance."
          else
            .ok { b with
                  payments := b.payments ++
                    [{ id := payId, amount := a,
                       paymentDate := body.paymentDate.getD "",
                       paymentMethod := body.paymentMethod.getD "",
                       notes := body.notes.getD "", createdAt := now }],
                  paid_amount := b.paid_amount + a,
                  outstanding_amount := b.total_amount - (b.paid_amount + a),
                  status := derive_status (b.total_amount - (b.paid_amount + a))
                    (b.paid_amount + a),
                  updated_at := now }) := by
      rw [add_payment, hb', hd, hm, hnum, ha]
      rfl
    rw [hout] at hred
    constructor
    · intro hlt
      rw [hred, if_pos hlt]
    · intro hle
      rw [hred, if_neg (not_lt.mpr hle)]

/-- The body of the witness payment for C4. -/
def c4Body : PaymentBody :=
  { amount := some 40, paymentDate := some "2026-01-05"
  , paymentMethod := some "cash", notes := none }

/-- Witness for C4: adding a payment of 40 to the sample bill (total 100, paid 0)
succeeds and persists paidAmount 0 + 40. -/
theorem C4_add_payment_rules_witness :
    add_payment "bill-1" c4Body (some sampleBill) "pay-1" 5
      = .ok { sampleBill with
              payments := sampleBill.payments ++
                [{ id := "pay-1", amount := 40, paymentDate := "2026-01-05",
                   paymentMethod := "cash", notes := "", createdAt := 5 }],
              paid_amount := sampleBill.paid_amount + 40,
              outstanding_amount := sampleBill.total_amount - (sampleBill.paid_amount + 40),
              status := derive_status (sampleBill.total_amount - (sampleBill.paid_amount + 40))
                (sampleBill.paid_amount + 40),
              updated_at := 5 } := by
  have h := C4_add_payment_rules sampleBill c4Body "bill-1" "pay-1" 5
    sampleBill_reachable (by decide) rfl rfl
  exact (h.2 40 rfl (by norm_num)).2 (by norm_num [sampleBill])

/-- C5: whenever Update succeeds on an existing bill, the persisted row keeps the
payments list and the paidAmount exactly as they were, while totalAmount is
recomputed from the replacement item set and outstandingAmount and status are
recomputed from the new total and the old paidAmount. -/
theorem C5_update_bill_frame (req : UpdateBillRequest) (billId : String)
    (b b' : BillRecord) (items' : List ProcessedItem) (itemIds recvIds : ℕ → String)
    (now : ℤ)
    (h : update_bill req billId (some b) itemIds recvIds now = .ok (b', items')) :
    b'.payments = b.payments ∧
    b'.paid_amount = b.paid_amount ∧
    b'.total_amount = itemsTotal req.items ∧
    b'.outstanding_amount = itemsTotal req.items - b.paid_amount ∧
    b'.status = derive_status (itemsTotal req.items - b.paid_amount) b.paid_amount := by
  obtain ⟨rfl, -⟩ := update_bill_ok req billId b itemIds recvIds now b' items' h
  exact ⟨rfl, rfl, rfl, rfl, rfl⟩

/-- The replacement request of the C5 witness: one item worth 40. -/
def c5Req : UpdateBillRequest :=
  { customerId := some "cust-1", billingDate := some "2026-01-01"
  , deliveryDate := some "2026-02-01", deliveryStatus := none
  , items := [oneItem 40], receivedItems := [], discount := none, notes := none }

/-- The header row persisted by the C5 witness update. -/
def c5After : BillRecord :=
  { bill_id := "bill-1", customer_id := "cust-1", bill_number := "B1"
  , billing_date := "2026-01-01", delivery_date := "2026-02-01"
  , delivery_status := some "pending", received_items := []
  , total_amount := 40, paid_amount := 0, outstanding_amount := 40
  , status := "unpaid", payments := [], discount := 0, notes := ""
  , created_at := 0, updated_at := 7 }

/-- The processed item of the C5 witness update. -/
def c5ItemAfter : ProcessedItem :=
  { id := "item-0", type := "custom", name := none, description := ""
  , quantity := 1, unitPrice := 40, totalPrice := 40, configItemId := none
  , materialSource := "customer", deliveryStatus := "pending", internalNotes := "" }

theorem c5_update_eq :
    update_bill c5Req "bill-1" (some sampleBill) (constIds "item-") (constIds "recv-") 7
      = .ok (c5After, [c5ItemAfter]) := by
  norm_num [update_bill, c5Req, oneItem, sampleBill, itemsTotal, processItemsUpdate,
    processItemUpdate, processItemFields, processReceivedsUpdate, strTruthy,
    derive_status, constIds, c5After, c5ItemAfter]
  rfl

/-- Witness for C5: the concrete update of the sample bill, with payments and
paidAmount untouched and the derived fields recomputed from the new total 40. -/
theorem C5_update_bill_frame_witness :
    c5After.payments = sampleBill.payments ∧
    c5After.paid_amount = sampleBill.paid_amount ∧
    c5After.total_amount = itemsTotal c5Req.items ∧
    c5After.outstanding_amount = itemsTotal c5Req.items - sampleBill.paid_amount ∧
    c5After.status = derive_status (itemsTotal c5Req.items - sampleBill.paid_amount)
      sampleBill.paid_amount :=
  C5_update_bill_frame c5Req "bill-1" sampleBill c5After [c5ItemAfter]
    (constIds "item-") (constIds "recv-") 7 c5_update_eq

/-- C6: deleting an existing ledger item removes its row and updates the parent
header incrementally: the new totalAmount is max(0, old total minus the stored
totalPrice of the deleted item), outstandingAmount is the new total minus the
preserved paidAmount, status is recomputed from those values, and paidAmount and the
payments list are unchanged. -/
theorem C6_delete_item_updates_header (itemId : String)
    (itemsTbl : String → Option ItemRecord) (billsTbl : String → Option BillRecord)
    (item : ItemRecord) (bill : BillRecord) (now : ℤ)
    (hid : itemId ≠ "") (hit : itemsTbl itemId = some item)
    (hb : billsTbl item.bill_id = some bill) :
    ∃ tbls, delete_bill_item itemId itemsTbl billsTbl now = .ok tbls ∧
      tbls.1 itemId = none ∧
      tbls.2 item.bill_id = some (deleteItemHeaderUpdate bill item.total_price now) ∧
      (deleteItemHeaderUpdate bill item.total_price now).total_amount
        = max 0 (bill.total_amount - item.total_price) ∧
      (deleteItemHeaderUpdate bill item.total_price now).outstanding_amount
        = max 0 (bill.total_amount - item.total_price) - bill.paid_amount ∧
      (deleteItemHeaderUpdate bill item.total_price now).status
        = derive_status (max 0 (bill.total_amount - item.total_price) - bill.paid_amount)
            bill.paid_amount ∧
      (deleteItemHeaderUpdate bill item.total_price now).paid_amount = bill.paid_amount ∧
      (deleteItemHeaderUpdate bill item.total_price now).payments = bill.payments := by
  refine ⟨(fun k => if k = itemId then none else itemsTbl k,
           fun k => if k = item.bill_id then
             some (deleteItemHeaderUpdate bill item.total_price now)
           else billsTbl k), ?_, by simp, by simp, rfl, rfl, rfl, rfl, rfl⟩
  simp only [delete_bill_item, if_neg hid, hit, hb]

/-- The parent bill of the C6 witness: total 500, paid 200, outstanding 300. -/
def c6Bill : BillRecord :=
  { bill_id := "bill-6", customer_id := "cust-1", bill_number := "B6"
  , billing_date := "2026-01-01", delivery_date := "2026-02-01"
  , delivery_status := some "pending", received_items := []
  , total_amount := 500, paid_amount := 200, outstanding_amount := 300
  , status := "partially_paid"
  , payments := [{ id := "pay-0", amount := 200, paymentDate := "2026-01-01"
                 , paymentMethod := "cash", notes := "", createdAt := 0 }]
  , discount := 0, notes := "", created_at := 0, updated_at := 0 }

/-- The ledger item worth 100 deleted in the C6 witness. -/
def c6Item : ItemRecord :=
  { item_id := "item-6", bill_id := "bill-6", type := "custom", name := some "Coat"
  , description := "", quantity := 1, unit_price := 100, total_price := 100
  , config_item_id := none, material_source := "customer", delivery_status := "pending"
  , internal_notes := "", reference_images := [], created_at := 0, updated_at := 0 }

/-- Witness for C6: the scenario of the specification, with the computed header
values 400 / 200 / partially_paid and untouched paidAmount 200. -/
theorem C6_delete_item_updates_header_witness :
    ∃ tbls, delete_bill_item "item-6"
        (fun k => if k = "item-6" then some c6Item else none)
        (fun k => if k = "bill-6" then some c6Bill else none) 9 = .ok tbls ∧
      tbls.1 "item-6" = none ∧
      tbls.2 "bill-6" = some (deleteItemHeaderUpdate c6Bill 100 9) ∧
      (deleteItemHeaderUpdate c6Bill 100 9).total_amount = 400 ∧
      (deleteItemHeaderUpdate c6Bill 100 9).outstanding_amount = 200 ∧
      (deleteItemHeaderUpdate c6Bill 100 9).status = "partially_paid" ∧
      (deleteItemHeaderUpdate c6Bill 100 9).paid_amount = 200 ∧
      (deleteItemHeaderUpdate c6Bill 100 9).payments = c6Bill.payments := by
  have h := C6_delete_item_updates_header "item-6"
    (fun k => if k = "item-6" then some c6Item else none)
    (fun k => if k = "bill-6" then some c6Bill else none)
    c6Item c6Bill 9 (by decide) (by simp) (by simp [c6Item])
  obtain ⟨tbls, h1, h2, h3, -, -, -, -, -⟩ := h
  have htotal : (deleteItemHeaderUpdate c6Bill 100 9).total_amount = 400 := by
    norm_num [deleteItemHeaderUpdate, c6Bill]
  have hout : (deleteItemHeaderUpdate c6Bill 100 9).outstanding_amount = 200 := by
    norm_num [deleteItemHeaderUpdate, c6Bill]
  have hstatus : (deleteItemHeaderUpdate c6Bill 100 9).status = "partially_paid" := by
    norm_num [deleteItemHeaderUpdate, c6Bill, derive_status]
  exact ⟨tbls, h1, h2, by simpa [c6Item] using h3, htotal, hout, hstatus, rfl, rfl⟩

/-- The stored item of the C7 failing input: quantity 2, unit price 10, total 20. -/
def c7Item : ItemRecord :=
  { item_id := "item-7", bill_id := "bill-7", type := "custom", name := some "Shirt"
  , description := "", quantity := 2, unit_price := 10, total_price := 20
  , config_item_id := none, material_source := "customer", delivery_status := "pending"
  , internal_notes := "", reference_images := [], created_at := 0, updated_at := 0 }

/-- The C7 failing body: an update that changes only the quantity (to 5). -/
def c7Body : ItemUpdateBody :=
  { name := none, description := none, quantity := some 5, unitPrice := none
  , deliveryStatus := none, materialSource := none, internalNotes := none }

/-- C7: the creation paths do recompute totalPrice as quantity times unitPrice, but
`update_bill_item` recomputes it only when `unitPrice` is part of the body: updating
only the quantity (stored item 2 x 10 = 20, body quantity 5) persists quantity 5
while leaving total_price at 20, violating `totalPrice == quantity * unitPrice`. -/
theorem C7_quantity_only_update_keeps_total_price :
    (∀ (freshId : String) (it : ItemInput),
      (processItemCreate freshId it).totalPrice
        = ((processItemCreate freshId it).quantity : ℚ)
            * (processItemCreate freshId it).unitPrice) ∧
    (∀ (freshId : String) (it : ItemInput),
      (processItemUpdate freshId it).totalPrice
        = ((processItemUpdate freshId it).quantity : ℚ)
            * (processItemUpdate freshId it).unitPrice) ∧
    update_bill_item "item-7" (some c7Item) c7Body 9
      = .ok (updateBillItemFields c7Item c7Body 9) ∧
    (updateBillItemFields c7Item c7Body 9).quantity = 5 ∧
    (updateBillItemFields c7Item c7Body 9).unit_price = 10 ∧
    (updateBillItemFields c7Item c7Body 9).total_price = 20 ∧
    (updateBillItemFields c7Item c7Body 9).total_price
      ≠ ((updateBillItemFields c7Item c7Body 9).quantity : ℚ)
          * (updateBillItemFields c7Item c7Body 9).unit_price := by
  refine ⟨fun freshId it => rfl, fun freshId it => rfl, ?_, rfl, rfl, rfl, ?_⟩
  · rw [update_bill_item, if_neg (by decide : ¬ ("item-7" : String) = "")]
  · show (20 : ℚ) ≠ ((5 : ℤ) : ℚ) * 10
    norm_num

/-- Pointwise effect of the delete loop of `save_bill_items`: a key is cleared
exactly when some existing row owns it and it is not among the new item ids; all
other keys are untouched. -/
theorem deletePhase_apply (newIds : List String) (l : List ItemRecord) :
    ∀ (tbl : String → Option ItemRecord) (k : String),
    deletePhase newIds l tbl k
      = if (∃ r ∈ l, r.item_id = k) ∧ k ∉ newIds then none else tbl k := by
  induction l with
  | nil => intro tbl k; simp [deletePhase]
  | cons r rest ih =>
      intro tbl k
      rw [deletePhase]
      by_cases hmem : r.item_id ∈ newIds
      · rw [if_pos hmem, ih]
        have hiff : ((∃ r' ∈ rest, r'.item_id = k) ∧ k ∉ newIds)
            ↔ ((∃ r' ∈ r :: rest, r'.item_id = k) ∧ k ∉ newIds) := by
          constructor
          · rintro ⟨⟨r', h1, h2⟩, h3⟩
            exact ⟨⟨r', .tail _ h1, h2⟩, h3⟩
          · rintro ⟨⟨r', h1, h2⟩, h3⟩
            rcases List.mem_cons.mp h1 with rfl | h1'
            · exact absurd (h2 ▸ hmem) h3
            · exact ⟨⟨r', h1', h2⟩, h3⟩
        by_cases hrest : (∃ r' ∈ rest, r'.item_id = k) ∧ k ∉ newIds
        · rw [if_pos hrest, if_pos (hiff.mp hrest)]
        · rw [if_neg hrest, if_neg (fun hc => hrest (hiff.mpr hc))]
      · rw [if_neg hmem, ih]
        by_cases hkr : k = r.item_id
        · subst hkr
          have hces : (∃ r' ∈ r :: rest, r'.item_id = r.item_id) ∧ r.item_id ∉ newIds :=
            ⟨⟨r, List.mem_cons_self r rest, rfl⟩, hmem⟩
          rw [if_pos hces]
          by_cases hrest : (∃ r' ∈ rest, r'.item_id = r.item_id) ∧ r.item_id ∉ newIds
          · rw [if_pos hrest]
          · rw [if_neg hrest, if_pos rfl]
        · have hiff : ((∃ r' ∈ rest, r'.item_id = k) ∧ k ∉ newIds)
              ↔ ((∃ r' ∈ r :: rest, r'.item_id = k) ∧ k ∉ newIds) := by
            constructor
            · rintro ⟨⟨r', h1, h2⟩, h3⟩
              exact ⟨⟨r', .tail _ h1, h2⟩, h3⟩
            · rintro ⟨⟨r', h1, h2⟩, h3⟩
              rcases List.mem_cons.mp h1 with rfl | h1'
              · exact absurd h2.symm hkr
              · exact ⟨⟨r', h1', h2⟩, h3⟩
          by_cases hrest : (∃ r' ∈ rest, r'.item_id = k) ∧ k ∉ newIds
          · rw [if_pos hrest, if_pos (hiff.mp hrest)]
          · rw [if_neg hrest, if_neg (fun hc => hrest (hiff.mpr hc)), if_neg hkr]

/-- The put loop leaves keys that are not among the new item ids untouched. -/
theorem putPhase_notmem (billId : String) (exMap : String → Option ItemRecord)
    (now : ℤ) (items : List ProcessedItem) :
    ∀ (tbl : String → Option ItemRecord) (k : String),
    k ∉ items.map ProcessedItem.id → putPhase billId exMap now items tbl k = tbl k := by
  induction items with
  | nil => intro tbl k _; rfl
  | cons it rest ih =>
      intro tbl k hk
      rw [List.map_cons, List.mem_cons, not_or] at hk
      rw [putPhase, ih _ _ hk.2, if_neg hk.1]

/-- With pairwise distinct new item ids, the put loop stores exactly the merged row
for every new item. -/
theorem putPhase_mem (billId : String) (exMap : String → Option ItemRecord) (now : ℤ)
    (items : List ProcessedItem) :
    ∀ (tbl : String → Option ItemRecord) (it : ProcessedItem),
    (items.map ProcessedItem.id).Nodup → it ∈ items →
    putPhase billId exMap now items tbl it.id
      = some (mkItemRecord billId (exMap it.id) now it) := by
  induction items with
  | nil => intro tbl it _ h; cases h
  | cons hd rest ih =>
      intro tbl it hnodup hmem
      rw [List.map_cons, List.nodup_cons] at hnodup
      rcases List.mem_cons.mp hmem with rfl | htail
      · rw [putPhase, putPhase_notmem _ _ _ _ _ _ hnodup.1, if_pos rfl]
      · rw [putPhase, ih _ _ hnodup.2 htail]

/-- `existingMap` finds nothing when no row owns the key. -/
theorem existingMap_eq_none (l : List ItemRecord) (k : String)
    (h : ∀ r ∈ l, r.item_id ≠ k) : existingMap l k = none := by
  induction l with
  | nil => rfl
  | cons r rest ih =>
      rw [existingMap, ih fun r' hr' => h r' (.tail _ hr'),
        if_neg (h r (List.mem_cons_self r rest))]

/-- With pairwise distinct keys, `existingMap` finds exactly the owning row. -/
theorem existingMap_eq_some (l : List ItemRecord) (r : ItemRecord) (k : String)
    (hkeys : (l.map ItemRecord.item_id).Nodup) (hr : r ∈ l) (hk : r.item_id = k) :
    existingMap l k = some r := by
  induction l with
  | nil => cases hr
  | cons hd rest ih =>
      rw [List.map_cons, List.nodup_cons] at hkeys
      rcases List.mem_cons.mp hr with rfl | htail
      · rw [existingMap, existingMap_eq_none rest k
          (fun r' hr' hc => hkeys.1 (hk ▸ hc ▸ List.mem_map_of_mem ItemRecord.item_id hr')),
          if_pos hk]
      · rw [existingMap, ih hkeys.2 htail]

/-- C8: `save_bill_items` (the ReplaceAll of the ledger, invoked by Create and
Update) deletes every existing row whose id is not among the new item ids; every new
item whose id matches an existing row keeps that row's referenceImages and original
createdAt; every item with a fresh id is stored with empty referenceImages and the
fresh timestamp. `existing` is the query result for the bill (the rows with
pairwise distinct primary keys), and the new item ids are pairwise distinct. -/
theorem C8_ledger_replace (billId : String) (existing : List ItemRecord)
    (items : List ProcessedItem) (now : ℤ) (tbl : String → Option ItemRecord)
    (hkeys : (existing.map ItemRecord.item_id).Nodup)
    (hnew : (items.map ProcessedItem.id).Nodup) :
    (∀ r ∈ existing, r.item_id ∉ items.map ProcessedItem.id →
      save_bill_items billId existing items now tbl r.item_id = none) ∧
    (∀ it ∈ items, ∀ r ∈ existing, r.item_id = it.id →
      save_bill_items billId existing items now tbl it.id
        = some (mkItemRecord billId (some r) now it) ∧
      (mkItemRecord billId (some r) now it).reference_images = r.reference_images ∧
      (mkItemRecord billId (some r) now it).created_at = r.created_at) ∧
    (∀ it ∈ items, (∀ r ∈ existing, r.item_id ≠ it.id) →
      save_bill_items billId existing items now tbl it.id
        = some (mkItemRecord billId none now it) ∧
      (mkItemRecord billId none now it).reference_images = [] ∧
      (mkItemRecord billId none now it).created_at = now) := by
  refine ⟨?_, ?_, ?_⟩
  · intro r hr hnot
    rw [save_bill_items, putPhase_notmem _ _ _ _ _ _ hnot, deletePhase_apply,
      if_pos ⟨⟨r, hr, rfl⟩, hnot⟩]
  · intro it hit r hr hrk
    rw [save_bill_items, putPhase_mem _ _ _ _ _ _ hnew hit,
      existingMap_eq_some existing r it.id hkeys hr hrk]
    exact ⟨rfl, rfl, rfl⟩
  · intro it hit hfresh
    rw [save_bill_items, putPhase_mem _ _ _ _ _ _ hnew hit,
      existingMap_eq_none existing it.id hfresh]
    exact ⟨rfl, rfl, rfl⟩

/-- Existing ledger row A of the C8 witness, carrying two reference images. -/
def recA : ItemRecord :=
  { item_id := "item-A", bill_id := "bill-8", type := "custom", name := some "Dress"
  , description := "", quantity := 1, unit_price := 100, total_price := 100
  , config_item_id := none, material_source := "customer", delivery_status := "pending"
  , internal_notes := "", reference_images := ["u1", "u2"], created_at := 11
  , updated_at := 11 }

/-- Existing ledger row B of the C8 witness. -/
def recB : ItemRecord :=
  { item_id := "item-B", bill_id := "bill-8", type := "custom", name := some "Skirt"
  , description := "", quantity := 1, unit_price := 50, total_price := 50
  , config_item_id := none, material_source := "customer", delivery_status := "pending"
  , internal_notes := "", reference_images := [], created_at := 12, updated_at := 12 }

/-- Replacement item A of the C8 witness: same id, edited name. -/
def itemA2 : ProcessedItem :=
  { id := "item-A", type := "custom", name := some "Dress edited", description := ""
  , quantity := 1, unitPrice := 100, totalPrice := 100, configItemId := none
  , materialSource := "customer", deliveryStatus := "pending", internalNotes := "" }

/-- Genuinely new item C of the C8 witness. -/
def itemC : ProcessedItem :=
  { id := "item-C", type := "custom", name := some "Belt", description := ""
  , quantity := 1, unitPrice := 20, totalPrice := 20, configItemId := none
  , materialSource := "customer", deliveryStatus := "pending", internalNotes := "" }

/-- The BillItems table of the C8 witness. -/
def tbl8 : String → Option ItemRecord := fun k =>
  if k = "item-A" then some recA else if k = "item-B" then some recB else none

/-- Witness for C8: replacing [A, B] with [A edited, C] keeps the two images and the
original createdAt of A, deletes B, and stores C with zero images and the fresh
timestamp. -/
theorem C8_ledger_replace_witness :
    save_bill_items "bill-8" [recA, recB] [itemA2, itemC] 7 tbl8 "item-A"
      = some (mkItemRecord "bill-8" (some recA) 7 itemA2) ∧
    (mkItemRecord "bill-8" (some recA) 7 itemA2).reference_images = ["u1", "u2"] ∧
    (mkItemRecord "bill-8" (some recA) 7 itemA2).created_at = 11 ∧
    save_bill_items "bill-8" [recA, recB] [itemA2, itemC] 7 tbl8 "item-B" = none ∧
    save_bill_items "bill-8" [recA, recB] [itemA2, itemC] 7 tbl8 "item-C"
      = some (mkItemRecord "bill-8" none 7 itemC) ∧
    (mkItemRecord "bill-8" none 7 itemC).reference_images = [] ∧
    (mkItemRecord "bill-8" none 7 itemC).created_at = 7 := by
  obtain ⟨h1, h2, h3⟩ :=
    C8_ledger_replace "bill-8" [recA, recB] [itemA2, itemC] 7 tbl8 (by decide) (by decide)
  refine ⟨(h2 itemA2 (List.mem_cons_self itemA2 [itemC]) recA
      (List.mem_cons_self recA [recB]) rfl).1, rfl, rfl,
    h1 recB (List.mem_cons_of_mem recA (List.mem_cons_self recB [])) (by decide),
    (h3 itemC (List.mem_cons_of_mem itemA2 (List.mem_cons_self itemC [])) ?_).1, rfl, rfl⟩
  intro r hr
  rcases List.mem_cons.mp hr with rfl | hr'
  · decide
  · rcases List.mem_cons.mp hr' with rfl | hr''
    · decide
    · cases hr''

/-- A stored bill whose `delivery_status` attribute is the EMPTY STRING (the client
sent deliveryStatus "" at creation, which `body.get("deliveryStatus", "pending")`
stores verbatim). -/
def c9EmptyBill : BillRecord :=
  { bill_id := "bill-9", customer_id := "cust-1", bill_number := "B9"
  , billing_date := "2026-01-01", delivery_date := "2026-02-01"
  , delivery_status := some "", received_items := []
  , total_amount := 10, paid_amount := 0, outstanding_amount := 10
  , status := "unpaid", payments := [], discount := 0, notes := ""
  , created_at := 0, updated_at := 0 }

/-- The processed item of the `c9EmptyBill` creation. -/
def c9Item : ProcessedItem :=
  { id := "item-0", type := "custom", name := none, description := ""
  , quantity := 1, unitPrice := 10, totalPrice := 10, configItemId := none
  , materialSource := "customer", deliveryStatus := "pending", internalNotes := "" }

/-- A stored bill with `delivery_status` "delivered". -/
def c9DeliveredBill : BillRecord :=
  { c9EmptyBill with bill_id := "bill-9d", delivery_status := some "delivered" }

/-- C9, counterexample: a bill stored with `delivery_status = ""` (neither "pending"
nor absent/null) IS returned by the deliveryStatus=pending filter, because the
response shaping treats every falsy stored value as pending; so the pending filter
does not return EXACTLY the bills whose stored value is "pending" or absent/null.
The delivered bill is still (correctly) excluded. -/
theorem C9_empty_string_counterexample :
    add_bill { mkReq 10 [] with deliveryStatus := some "" } "bill-9" "B9"
      (constIds "item-") (constIds "recv-") (constIds "pay-") 0
      = .ok (c9EmptyBill, [c9Item]) ∧
    billListed (some "pending") c9EmptyBill = true ∧
    c9EmptyBill.delivery_status ≠ none ∧
    c9EmptyBill.delivery_status ≠ some "pending" ∧
    billListed (some "pending") c9DeliveredBill = false := by
  refine ⟨?_, by decide, by decide, by decide, by decide⟩
  norm_num [add_bill, mkReq, oneItem, validCreate, itemsTotal, processItemsCreate,
    processItemCreate, processItemFields, processReceivedsCreate, process_payments,
    strTruthy, derive_status, constIds, c9EmptyBill, c9Item]
  rfl

/-- C9 (amended): the pending filter of `get_bills` returns exactly the bills whose
stored deliveryStatus is "pending", absent/null, or the empty string (any falsy
stored value is shaped to pending); every other non empty filter value returns
exactly the bills with an exact stored match. -/
theorem C9_pending_filter_rule (b : BillRecord) :
    (billListed (some "pending") b = true ↔
      (b.delivery_status = none ∨ b.delivery_status = some ""
        ∨ b.delivery_status = some "pending")) ∧
    (∀ ds : String, ds ≠ "" → ds ≠ "pending" →
      (billListed (some ds) b = true ↔ b.delivery_status = some ds)) := by
  constructor
  · rcases hds : b.delivery_status with - | s
    · simp [billListed, scanKeepsDelivery, postKeepsDelivery, viewDeliveryStatus,
        orPending, hds]
    · by_cases hs : s = ""
      · subst hs
        simp [billListed, scanKeepsDelivery, postKeepsDelivery, viewDeliveryStatus,
          orPending, hds]
      · simp [billListed, scanKeepsDelivery, postKeepsDelivery, viewDeliveryStatus,
          orPending, hds, hs]
  · intro ds hds1 hds2
    simp [billListed, scanKeepsDelivery, postKeepsDelivery, viewDeliveryStatus,
      orPending, bne_iff_ne, hds1, hds2]

/-- Witness for C9 (amended): an absent stored value and an exact "pending" value
are listed under the pending filter, a "delivered" value is not, and the
deliveryStatus=delivered filter lists exactly the delivered bill. -/
theorem C9_pending_filter_rule_witness :
    billListed (some "pending") { c9EmptyBill with delivery_status := none } = true ∧
    billListed (some "pending") { c9EmptyBill with delivery_status := some "pending" } = true ∧
    billListed (some "pending") c9DeliveredBill = false ∧
    billListed (some "delivered") c9DeliveredBill = true ∧
    billListed (some "delivered") { c9EmptyBill with delivery_status := none } = false := by
  refine ⟨(C9_pending_filter_rule _).1.mpr (Or.inl rfl),
    (C9_pending_filter_rule _).1.mpr (Or.inr (Or.inr rfl)), ?_,
    ((C9_pending_filter_rule c9DeliveredBill).2 "delivered" (by decide) (by decide)).mpr rfl,
    ?_⟩
  · cases hb : billListed (some "pending") c9DeliveredBill
    · rfl
    · rcases (C9_pending_filter_rule c9DeliveredBill).1.mp hb with h | h | h <;>
        revert h <;> decide
  · cases hb : billListed (some "delivered") { c9EmptyBill with delivery_status := none }
    · rfl
    · have := ((C9_pending_filter_rule { c9EmptyBill with delivery_status := none }).2
        "delivered" (by decide) (by decide)).mp hb
      revert this
      decide

/-- C10: whenever Update succeeds and the request body omits deliveryStatus, the
persisted row's delivery_status is overwritten with "pending", whatever was stored
before; deliveryStatus is therefore not a field Update leaves unchanged when absent
from the request. -/
theorem C10_update_resets_delivery_status (req : UpdateBillRequest) (billId : String)
    (b b' : BillRecord) (items' : List ProcessedItem) (itemIds recvIds : ℕ → String)
    (now : ℤ) (hds : req.deliveryStatus = none)
    (h : update_bill req billId (some b) itemIds recvIds now = .ok (b', items')) :
    b'.delivery_status = some "pending" := by
  obtain ⟨rfl, -⟩ := update_bill_ok req billId b itemIds recvIds now b' items' h
  simp [hds]

/-- The stored bill of the C10 witness, with delivery_status "delivered". -/
def c10Bill : BillRecord :=
  { sampleBill with bill_id := "bill-10", delivery_status := some "delivered" }

/-- The header row persisted by the C10 witness update. -/
def c10After : BillRecord :=
  { bill_id := "bill-10", customer_id := "cust-1", bill_number := "B1"
  , billing_date := "2026-01-01", delivery_date := "2026-02-01"
  , delivery_status := some "pending", received_items := []
  , total_amount := 40, paid_amount := 0, outstanding_amount := 40
  , status := "unpaid", payments := [], discount := 0, notes := ""
  , created_at := 0, updated_at := 3 }

theorem c10_update_eq :
    update_bill c5Req "bill-10" (some c10Bill) (constIds "item-") (constIds "recv-") 3
      = .ok (c10After, [c5ItemAfter]) := by
  norm_num [update_bill, c5Req, oneItem, c10Bill, sampleBill, itemsTotal,
    processItemsUpdate, processItemUpdate, processItemFields, processReceivedsUpdate,
    strTruthy, derive_status, constIds, c10After, c5ItemAfter]
  rfl

/-- Witness for C10: the stored value "delivered" is overwritten with "pending" by an
update whose body has no deliveryStatus. -/
theorem C10_update_resets_delivery_status_witness :
    c10Bill.delivery_status = some "delivered" ∧
    c5Req.deliveryStatus = none ∧
    c10After.delivery_status = some "pending" :=
  ⟨rfl, rfl, C10_update_resets_delivery_status c5Req "bill-10" c10Bill c10After
    [c5ItemAfter] (constIds "item-") (constIds "recv-") 3 rfl c10_update_eq⟩

end Billing
